import Mathlib

/-!
Verification of the Video component derivation logic

Shallow embedding of `src/components/Video/Video.js`: the derivation of
`{ sources, tagAttributes }` for a CDN-served video element.

Modelling conventions:

* A JavaScript object is modelled as an association list `AList V`
  (`List (String × V)`) observed only through `alookup`, which returns the
  value of the FIRST entry with the given key.  Under this observation, a
  JS object spread `\x7b...a, ...b\x7d` (where `b` wins key collisions) is
  `b ++ a`, and `Util.defaults(dest, s1, s2, ...)` from cloudinary-core
  (lodash `defaults` semantics: each source is copied left to right into the
  destination, setting only keys that are still undefined, so the destination
  wins over every source and earlier sources win over later ones) is
  `dest ++ s1 ++ s2 ++ ...`.
* Option values are opaque strings; per-format source transformations are
  objects whose values are themselves objects (`AList Obj`).
* The CDN library `cloudinary-core` (`Cloudinary.new`, `cld.url`,
  `cld.videoTag(...).attributes()`, `Util.withSnakeCaseKeys`,
  `Util.withCamelCaseKeys`) is an external opaque service, modelled as
  parameters gathered in `Env`.  Key-case conversion is an opaque
  key-renaming function applied entrywise, as the spec prescribes.
* Repository helpers that are not part of the provided sources
  (`CloudinaryComponent.normalizeOptions`, `extractCloudinaryProps`,
  `CloudinaryComponent.getTransformation`) are modelled from the spec where
  a claim depends on them; `getTransformation` is opaque (its output is an
  opaque transformation object in every claim considered).
-/

namespace CloudinaryReact

/-- A JavaScript object with values of type `V`, as an association list.
Only `alookup` (first entry wins) observes it. -/
abbrev AList (V : Type) := List (String × V)

/-- An options / attributes object with opaque (string) values. -/
abbrev Obj := AList String

/-- Value of key `key`: the first entry with that key, if any. -/
def alookup {V : Type} : AList V → String → Option V
  | [], _ => none
  | (k, v) :: rest, key => if k = key then some v else alookup rest key

/-- JS object spread `\x7b...a, ...b\x7d`: entries of `b` win key collisions. -/
def spread {V : Type} (a b : AList V) : AList V := b ++ a

/-- cloudinary-core `Util.defaults(dest, sources...)` (lodash semantics):
copies each source, left to right, into the destination, setting only keys
that are still undefined.  Hence the destination wins over every source and
earlier sources win over later ones. -/
def defaults {V : Type} (dest : AList V) (sources : List (AList V)) : AList V :=
  dest ++ sources.flatten

/-- JS assignment `o[k] = v`: afterwards `k` reads as `v`, other keys are
unchanged. -/
def setKey {V : Type} (o : AList V) (k : String) (v : V) : AList V :=
  (k, v) :: o

/-! ## The Video component, from `src/components/Video/Video.js` -/

/-- Line 11: `Video.mimeType = 'video'`, the fixed media family for this
element kind. -/
def mimeType : String := "video"

/-- Lines 17-19: `getMergedProps`, `\x7b ...this.getContext(), ...this.props \x7d`
— ambient context spread first, per-element props spread last (props win). -/
def getMergedProps {V : Type} (context props : AList V) : AList V :=
  spread context props

/-- The two fields forced into the URL options by `generateVideoUrl`
(lines 42-45): `resource_type: 'video'` and `format: sourceType`. -/
def forcedFields (sourceType : String) : Obj :=
  [("resource_type", "video"), ("format", sourceType)]

/-- The `urlOptions` built by `generateVideoUrl` (lines 37-46):
`sourceTransformations[sourceType] || \x7b\x7d`, then
`Util.defaults(\x7b\x7d, sourceTransformation, childTransformations,
\x7b resource_type: 'video', format: sourceType \x7d)`. -/
def videoUrlOptions (childTransformations : Obj)
    (sourceTransformations : AList Obj) (sourceType : String) : Obj :=
  let sourceTransformation := (alookup sourceTransformations sourceType).getD []
  defaults [] [sourceTransformation, childTransformations, forcedFields sourceType]

/-- Lines 30-49: `generateVideoUrl` builds `urlOptions` and returns
`cld.url(publicId, urlOptions)` verbatim.  The CDN URL builder `cld.url` is
opaque, passed as `cldUrl`. -/
def generateVideoUrl (cldUrl : String → Obj → String) (publicId : String)
    (childTransformations : Obj) (sourceTransformations : AList Obj)
    (sourceType : String) : String :=
  cldUrl publicId (videoUrlOptions childTransformations sourceTransformations sourceType)

/-- A `<source>` element as emitted by `generateSources` (line 79):
`<source key=\x7bmimeType\x7d src=\x7bsrc\x7d type=\x7bmimeType\x7d />`. -/
structure SourceTag where
  key : String
  src : String
  type : String
  deriving DecidableEq, Repr

/-- The `<source>` tag generated for one `sourceType` (lines 67-79 loop body):
its url from `generateVideoUrl`, its media type
`` `$\x7bthis.mimeType\x7d/$\x7bsourceType === 'ogv' ? 'ogg' : sourceType\x7d` ``. -/
def sourceTagFor (cldUrl : String → Obj → String) (publicId : String)
    (childTransformations : Obj) (sourceTransformations : AList Obj)
    (sourceType : String) : SourceTag :=
  let src := generateVideoUrl cldUrl publicId childTransformations
    sourceTransformations sourceType
  let mt := mimeType ++ "/" ++ (if sourceType = "ogv" then "ogg" else sourceType)
  ⟨mt, src, mt⟩

/-- Lines 60-80: `generateSources`, `sourceTypes.map(sourceType => ...)`. -/
def generateSources (cldUrl : String → Obj → String) (publicId : String)
    (childTransformations : Obj) (sourceTransformations : AList Obj)
    (sourceTypes : List String) : List SourceTag :=
  sourceTypes.map
    (sourceTagFor cldUrl publicId childTransformations sourceTransformations)

/-! ## `getVideoTagProps` (lines 86-145)

The format selector `sourceTypes` is either a scalar token or a list of
tokens; `Util.isArray` distinguishes them, which the embedding renders as a
sum type (the tagged variant the spec itself prescribes for a
reimplementation). -/

/-- The `sourceTypes` input: a single scalar format token or a list of
format tokens, distinguished at runtime by `Util.isArray` (line 124). -/
inductive FormatInput where
  | scalar (tok : String)
  | list (toks : List String)
  deriving DecidableEq, Repr

/-- Modelled from the spec: `CloudinaryComponent.normalizeOptions` (a
repository helper whose source is not included) merges its argument
configurations into one mapping; unknown keys are never dropped (spec §4.1).
`Video.js` calls it as `normalizeOptions(options, \x7b\x7d)` (line 97). -/
def normalizeOptions (options extra : Obj) : Obj :=
  spread options extra

/-- The key classification used by `extractCloudinaryProps`: which keys are
provider-recognized core options and which are provider-recognized
element-level (react) options.  The concrete key lists live in the
repository's `Util` (not included) and the spec does not enumerate them, so
they are parameters. -/
structure KeyClassifier where
  isCloudinaryProp : String → Bool
  isCloudinaryReactProp : String → Bool

/-- Modelled from the spec: `extractCloudinaryProps` (repository `Util`, not
included) separates the configuration into three disjoint mappings —
provider-recognized core options, provider-recognized element-level options,
and everything else (pass-through); no key is ever dropped and no error is
raised (spec §4.1). -/
def extractCloudinaryProps (c : KeyClassifier) (options : Obj) :
    Obj × Obj × Obj :=
  (options.filter (fun kv => c.isCloudinaryProp kv.1),
   options.filter (fun kv => !c.isCloudinaryProp kv.1 && c.isCloudinaryReactProp kv.1),
   options.filter (fun kv => !c.isCloudinaryProp kv.1 && !c.isCloudinaryReactProp kv.1))

/-- The opaque collaborators of `getVideoTagProps`:

* `snakeKey` / `camelKey` — the key renamings applied entrywise by
  cloudinary-core `Util.withSnakeCaseKeys` / `Util.withCamelCaseKeys`
  (external library, spec §4.1 and §9);
* `videoTagAttributes cfg pid opts` —
  `Cloudinary.new(cfg).videoTag(pid, opts).attributes()` (external library,
  provider-case attribute mapping, spec §6);
* `url cfg pid opts` — `Cloudinary.new(cfg).url(pid, opts)` (external
  library, the opaque CDN URL builder, spec §4.3);
* `getTransformation opts` — `CloudinaryComponent.getTransformation`
  applied to `\x7b ...options, children \x7d` (repository helper not included;
  its result is the opaque element-level transformation object, spec §4.2;
  the opaque `children` argument is absorbed into the function). -/
structure Env where
  snakeKey : String → String
  camelKey : String → String
  videoTagAttributes : Obj → String → Obj → Obj
  url : Obj → String → Obj → String
  getTransformation : Obj → Obj

/-- Rename every key of an object by `f` (entrywise model of the
case-conversion helpers). -/
def mapKeys (f : String → String) (o : Obj) : Obj :=
  o.map (fun kv => (f kv.1, kv.2))

/-- The merged, already-destructured props of the component (lines 87-95):
`publicId`, `sourceTypes`, `sourceTransformation = \x7b\x7d`, and the remaining
`...options` (`rest`); `innerRef`, `fallback` and `children` are opaque to
every claim and omitted (`children` is absorbed into
`Env.getTransformation`). -/
structure MergedVideoProps where
  publicId : String
  sourceTypes : FormatInput
  sourceTransformation : AList Obj
  rest : Obj

/-- Line 97: `options = CloudinaryComponent.normalizeOptions(options, \x7b\x7d)`. -/
def normalizedOptions (p : MergedVideoProps) : Obj :=
  normalizeOptions p.rest []

/-- Line 103: `options = \x7b ...cloudinaryProps, ...cloudinaryReactProps \x7d`. -/
def providerOptions (c : KeyClassifier) (p : MergedVideoProps) : Obj :=
  let parts := extractCloudinaryProps c (normalizedOptions p)
  spread parts.1 parts.2.1

/-- The pass-through part: `nonCloudinaryProps` of line 102. -/
def passThroughProps (c : KeyClassifier) (p : MergedVideoProps) : Obj :=
  (extractCloudinaryProps c (normalizedOptions p)).2.2

/-- Lines 106-107: `snakeCaseOptions = Util.withSnakeCaseKeys(options)`,
the configuration handed to `Cloudinary.new`. -/
def cldConfig (env : Env) (c : KeyClassifier) (p : MergedVideoProps) : Obj :=
  mapKeys env.snakeKey (providerOptions c p)

/-- Lines 110-114: provider-computed tag attributes, case-converted back to
the caller-facing dialect, with the pass-through entries spread last. -/
def reconciledAttributes (env : Env) (c : KeyClassifier)
    (p : MergedVideoProps) : Obj :=
  spread
    (mapKeys env.camelKey
      (env.videoTagAttributes (cldConfig env c p) p.publicId (providerOptions c p)))
    (passThroughProps c p)

/-- Lines 117-120: the aggregated element-level child transformations. -/
def childTransformationsOf (env : Env) (c : KeyClassifier)
    (p : MergedVideoProps) : Obj :=
  env.getTransformation (providerOptions c p)

/-- The result of `getVideoTagProps` (line 144): `sources` is the JS value
`null` (`none`) or a list of `<source>` tags (`some`). -/
structure VideoTagProps where
  sources : Option (List SourceTag)
  tagAttributes : Obj
  deriving DecidableEq, Repr

/-- Lines 86-145: `getVideoTagProps`: normalize and split the options,
compute and reconcile the tag attributes, then branch on
`Util.isArray(sourceTypes)` (line 124): a list of tokens yields `<source>`
tags via `generateSources`; a scalar token sets `tagAttributes.src` via
`generateVideoUrl` and leaves `sources` as `null`. -/
def getVideoTagProps (env : Env) (c : KeyClassifier)
    (p : MergedVideoProps) : VideoTagProps :=
  match p.sourceTypes with
  | .list toks =>
      { sources := some (generateSources (env.url (cldConfig env c p)) p.publicId
          (childTransformationsOf env c p) p.sourceTransformation toks),
        tagAttributes := reconciledAttributes env c p }
  | .scalar tok =>
      { sources := none,
        tagAttributes := setKey (reconciledAttributes env c p) "src"
          (generateVideoUrl (env.url (cldConfig env c p)) p.publicId
            (childTransformationsOf env c p) p.sourceTransformation tok) }

/-- Lines 213-215: `Video.defaultProps`: when the caller supplies no
`sourceTypes` prop, the React framework fills it with the CDN library
constant `Cloudinary.DEFAULT_VIDEO_PARAMS.source_types` — an external
opaque list of format tokens, passed here as `defaultSourceTypes`. -/
def applyDefaultProps (defaultSourceTypes : List String)
    (callerSourceTypes : Option FormatInput) : FormatInput :=
  callerSourceTypes.getD (FormatInput.list defaultSourceTypes)

/-- Two sequential invocations of the derivation with identical inputs.
The embedding of `getVideoTagProps` is a pure function of the merged
configuration because the method reads only its inputs and assigns only
locals (lines 86-145 write no instance state and consult no cache). -/
def deriveTwice (env : Env) (c : KeyClassifier) (p : MergedVideoProps) :
    VideoTagProps × VideoTagProps :=
  (getVideoTagProps env c p, getVideoTagProps env c p)

/-! ## The URL option merge as the spec words it (for refinement comparison) -/

/-- The per-format option merge as the SPEC states it (§4.3): layering in
precedence order low→high — the format-specific source-transformation
override, the element-level transformation list, then the two forced fields
`resource_type: 'video'` and the format token — with later layers winning
every key collision (object-spread semantics, "the forced fields win").
Written from the spec's words, to be compared with `videoUrlOptions`, the
merge the code actually performs. -/
def specVideoUrlOptions (childTransformations : Obj)
    (sourceTransformations : AList Obj) (sourceType : String) : Obj :=
  spread
    (spread ((alookup sourceTransformations sourceType).getD []) childTransformations)
    (forcedFields sourceType)

/-! ## A heap model of `generateVideoUrl`, for the frame property

JS objects live in a mutable heap; `Util.defaults(dest, ...)` mutates its
destination object in place and only reads its sources.  The heap is a list
of objects addressed by position; `generateVideoUrl` allocates a fresh empty
destination (the literal `\x7b\x7d` on line 39) and merges into it. -/

/-- The heap: objects addressed by allocation index. -/
abbrev Store := List Obj

/-- Read the object at address `r`. -/
def Store.read (s : Store) (r : Nat) : Obj := s.getD r []

/-- Heap version of `Util.defaults(dest, sources...)`: mutates the destination
object in place (sources are only read). -/
def Store.defaultsInto (s : Store) (dest : Nat) (sources : List Obj) : Store :=
  s.set dest (defaults (s.read dest) sources)

/-- Lines 30-49 again, `generateVideoUrl` with the heap explicit: the
caller-supplied child transformations and per-format override objects are
passed by reference (`childRef`, values of `sourceTransformationRefs`); the
destination of `Util.defaults` is a freshly allocated empty object. -/
def generateVideoUrlHeap (s : Store) (cldUrl : String → Obj → String)
    (publicId : String) (childRef : Nat) (sourceTransformationRefs : AList Nat)
    (sourceType : String) : String × Store :=
  let sourceTransformation :=
    match alookup sourceTransformationRefs sourceType with
    | some r => s.read r
    | none => []
  let destRef := s.length
  let s1 := s ++ [[]]
  let s2 := Store.defaultsInto s1 destRef
    [sourceTransformation, s.read childRef, forcedFields sourceType]
  (cldUrl publicId (s2.read destRef), s2)

/-! ## Concrete fixtures for witnesses and counterexamples -/

/-- A concrete CDN URL builder used only to observe which options the code
passes to the service: it serializes the publicId with the values of
`resource_type` and `format`. -/
def probeCld : String → Obj → String :=
  fun publicId opts =>
    publicId ++ ":" ++ (alookup opts "resource_type").getD "-" ++ ":" ++
      (alookup opts "format").getD "-"

/-- A concrete environment for evaluating the derivation on sample inputs.
Its provider-attribute service reports a `controls` attribute, so that a
pass-through `controls` key exercises the collision case. -/
def testEnv : Env where
  snakeKey := fun k => k
  camelKey := fun k => k
  videoTagAttributes := fun _ publicId _ => [("controls", "provider"), ("id", publicId)]
  url := fun _ => probeCld
  getTransformation := fun o => o

/-- A concrete key classification: `cloudName` is a provider core key and
`onIdle` a provider element-level key; everything else passes through. -/
def testClassifier : KeyClassifier where
  isCloudinaryProp := fun k => k = "cloudName"
  isCloudinaryReactProp := fun k => k = "onIdle"

/-- Sample merged props in multi-format mode. -/
def testProps : MergedVideoProps where
  publicId := "sample"
  sourceTypes := FormatInput.list ["mp4", "ogv"]
  sourceTransformation := [("mp4", [("quality", "70")])]
  rest := [("cloudName", "demo"), ("controls", "true")]

/-- Sample merged props in single-format (scalar) mode. -/
def testScalarProps : MergedVideoProps where
  publicId := "sample"
  sourceTypes := FormatInput.scalar "webm"
  sourceTransformation := []
  rest := []

/-- Sample merged props with an empty format-token list. -/
def testEmptyProps : MergedVideoProps where
  publicId := "sample"
  sourceTypes := FormatInput.list []
  sourceTransformation := []
  rest := []

/-- Sample merged props where the caller supplied no `sourceTypes`, so
`Video.defaultProps` fills it with the provider default list. -/
def testDefaultedProps : MergedVideoProps where
  publicId := "sample"
  sourceTypes := applyDefaultProps ["webm", "mp4", "ogv"] none
  sourceTransformation := []
  rest := []

/-- Sample ambient context and per-element props for the merge claim. -/
def demoContext : Obj := [("cloudName", "demo"), ("width", "100")]

/-- Per-element props overriding `width` from `demoContext`. -/
def demoProps : Obj := [("width", "500")]

/-! ## Basic lemmas about the object model -/

@[simp] theorem alookup_nil {V : Type} (key : String) :
    alookup ([] : AList V) key = none := rfl

@[simp] theorem alookup_cons {V : Type} (k : String) (v : V) (rest : AList V)
    (key : String) :
    alookup ((k, v) :: rest) key = if k = key then some v else alookup rest key := rfl

theorem alookup_append {V : Type} (a b : AList V) (key : String) :
    alookup (a ++ b) key = (alookup a key).or (alookup b key) := by
  induction a with
  | nil => simp [Option.or]
  | cons hd tl ih =>
      obtain ⟨k, v⟩ := hd
      by_cases hk : k = key
      · simp [hk, Option.or]
      · simp [hk, ih]

theorem alookup_spread {V : Type} (a b : AList V) (key : String) :
    alookup (spread a b) key = (alookup b key).or (alookup a key) := by
  simp [spread, alookup_append]

theorem alookup_setKey_self {V : Type} (o : AList V) (k : String) (v : V) :
    alookup (setKey o k v) k = some v := by
  simp [setKey]

theorem alookup_setKey_ne {V : Type} (o : AList V) (k key : String) (v : V)
    (h : k ≠ key) :
    alookup (setKey o k v) key = alookup o key := by
  simp [setKey, h]

theorem alookup_filter {V : Type} (p : String → Bool) (o : AList V) (key : String) :
    alookup (o.filter (fun kv => p kv.1)) key =
      if p key then alookup o key else none := by
  induction o with
  | nil => simp
  | cons hd tl ih =>
      obtain ⟨k, v⟩ := hd
      by_cases hk : k = key
      · subst hk
        by_cases hp : p k <;> simp [hp, ih]
      · by_cases hp : p k <;> simp [hp, hk, ih]

theorem alookup_map_value {V W : Type} (f : V → W) (l : AList V) (key : String) :
    alookup (l.map (fun kv => (kv.1, f kv.2))) key = (alookup l key).map f := by
  induction l with
  | nil => simp
  | cons hd tl ih =>
      obtain ⟨k, v⟩ := hd
      by_cases hk : k = key <;> simp [hk, ih]

/-! ## List indexing lemmas for the heap -/

theorem getD_append_lt {α : Type} (l₁ l₂ : List α) (n : Nat) (d : α)
    (h : n < l₁.length) :
    (l₁ ++ l₂).getD n d = l₁.getD n d := by
  induction l₁ generalizing n with
  | nil => exact absurd h (Nat.not_lt_zero n)
  | cons hd tl ih =>
      cases n with
      | zero => rfl
      | succ m =>
          simp only [List.cons_append, List.getD_cons_succ]
          exact ih m (Nat.lt_of_succ_lt_succ h)

theorem getD_append_length {α : Type} (l : List α) (x d : α) :
    (l ++ [x]).getD l.length d = x := by
  induction l with
  | nil => rfl
  | cons hd tl ih =>
      simp only [List.cons_append, List.length_cons, List.getD_cons_succ]
      exact ih

theorem getD_set_ne {α : Type} (l : List α) (i n : Nat) (x d : α)
    (h : n ≠ i) :
    (l.set i x).getD n d = l.getD n d := by
  induction l generalizing i n with
  | nil => simp [List.set]
  | cons hd tl ih =>
      cases i with
      | zero =>
          cases n with
          | zero => exact absurd rfl h
          | succ m => simp [List.set]
      | succ j =>
          cases n with
          | zero => simp [List.set]
          | succ m =>
              simp only [List.set, List.getD_cons_succ]
              exact ih j m (fun e => h (congrArg Nat.succ e))

theorem getD_set_self {α : Type} (l : List α) (i : Nat) (x d : α)
    (h : i < l.length) :
    (l.set i x).getD i d = x := by
  induction l generalizing i with
  | nil => exact absurd h (Nat.not_lt_zero i)
  | cons hd tl ih =>
      cases i with
      | zero => rfl
      | succ m =>
          simp only [List.set, List.getD_cons_succ]
          exact ih m (Nat.lt_of_succ_lt_succ h)

/-- Reading back the freshly allocated destination of a `defaults` merge
yields exactly the merge of the sources into the empty object. -/
theorem defaultsInto_fresh_read (s : Store) (sources : List Obj) :
    Store.read (Store.defaultsInto (s ++ [[]]) s.length sources) s.length =
      defaults [] sources := by
  unfold Store.defaultsInto
  rw [show Store.read (s ++ [[]]) s.length = ([] : Obj) from
    getD_append_length s [] []]
  exact getD_set_self _ _ _ _ (by simp)

/-- Coherence of the heap model with the pure embedding: the URL produced by
the heap version is the one `generateVideoUrl` produces on the values the
references point to. -/
theorem generateVideoUrlHeap_fst (s : Store) (cldUrl : String → Obj → String)
    (publicId : String) (childRef : Nat) (stRefs : AList Nat)
    (sourceType : String) :
    (generateVideoUrlHeap s cldUrl publicId childRef stRefs sourceType).1 =
      generateVideoUrl cldUrl publicId (Store.read s childRef)
        (stRefs.map (fun kv => (kv.1, Store.read s kv.2))) sourceType := by
  simp only [generateVideoUrlHeap, generateVideoUrl, videoUrlOptions,
    defaultsInto_fresh_read, alookup_map_value]
  cases alookup stRefs sourceType <;> rfl

/-! ## Shared branch lemmas for `getVideoTagProps` -/

theorem getVideoTagProps_list (env : Env) (c : KeyClassifier)
    (p : MergedVideoProps) (toks : List String)
    (h : p.sourceTypes = FormatInput.list toks) :
    getVideoTagProps env c p =
      ⟨some (toks.map (sourceTagFor (env.url (cldConfig env c p)) p.publicId
          (childTransformationsOf env c p) p.sourceTransformation)),
        reconciledAttributes env c p⟩ := by
  simp [getVideoTagProps, h, generateSources]

theorem getVideoTagProps_scalar (env : Env) (c : KeyClassifier)
    (p : MergedVideoProps) (tok : String)
    (h : p.sourceTypes = FormatInput.scalar tok) :
    getVideoTagProps env c p =
      ⟨none, setKey (reconciledAttributes env c p) "src"
        (generateVideoUrl (env.url (cldConfig env c p)) p.publicId
          (childTransformationsOf env c p) p.sourceTransformation tok)⟩ := by
  simp [getVideoTagProps, h]

/-! ## Claim theorems -/

/-- C1 (counterexample): the claimed layering — override, then element-level
transformations, then the forced fields winning every collision — does not
describe `generateVideoUrl`.  With an element-level transformation that sets
`resource_type`, the code's `Util.defaults` merge lets the element-level
value win over the forced `resource_type: 'video'`, while the claimed
spread merge would force `'video'`; a CDN service observing that key
receives different options than the claim asserts. -/
theorem generateVideoUrl_spec_layering_refuted :
    generateVideoUrl probeCld "sample" [("resource_type", "raw")] [] "mp4" ≠
      probeCld "sample" (specVideoUrlOptions [("resource_type", "raw")] [] "mp4") := by
  decide

/-- C1 (amended): `generateVideoUrl` passes the publicId and the merged
per-format options to the opaque CDN URL service and returns its result
verbatim; the options are merged with `Util.defaults` first-wins semantics,
so the precedence order HIGH to LOW is: the format-specific
source-transformation override registered for the exact token (empty if
none), then the element-level transformation list, then the two fields
`resource_type = "video"` and the format token, which only fill keys absent
from both. -/
theorem generateVideoUrl_merge_precedence (cldUrl : String → Obj → String)
    (publicId : String) (childTransformations : Obj)
    (sourceTransformations : AList Obj) (sourceType : String) :
    generateVideoUrl cldUrl publicId childTransformations sourceTransformations
        sourceType =
      cldUrl publicId
        (videoUrlOptions childTransformations sourceTransformations sourceType) ∧
    ∀ key,
      alookup (videoUrlOptions childTransformations sourceTransformations sourceType)
          key =
        (alookup ((alookup sourceTransformations sourceType).getD []) key).or
          ((alookup childTransformations key).or
            (alookup (forcedFields sourceType) key)) := by
  refine ⟨rfl, fun key => ?_⟩
  simp [videoUrlOptions, defaults, alookup_append]

/-- C2: whenever the format input is a list of tokens (duplicates allowed),
the derivation emits exactly one source descriptor per token, in input
order, with no deduplication (position `i` of the output is determined by
token `i` alone), and the branch leaves the tag attributes exactly as the
attribute reconciliation produced them — no `src` attribute is set by this
logic. -/
theorem multi_format_sources (env : Env) (c : KeyClassifier)
    (p : MergedVideoProps) (toks : List String)
    (h : p.sourceTypes = FormatInput.list toks) :
    ∃ srcs,
      getVideoTagProps env c p = ⟨some srcs, reconciledAttributes env c p⟩ ∧
      srcs.length = toks.length ∧
      ∀ i : Nat, srcs[i]? = (toks[i]?).map
        (sourceTagFor (env.url (cldConfig env c p)) p.publicId
          (childTransformationsOf env c p) p.sourceTransformation) := by
  refine ⟨toks.map (sourceTagFor (env.url (cldConfig env c p)) p.publicId
      (childTransformationsOf env c p) p.sourceTransformation),
    getVideoTagProps_list env c p toks h, by simp, fun i => ?_⟩
  simp

/-- C2 witness: the multi-format theorem evaluated on sample props with
tokens `["mp4", "ogv"]`. -/
theorem multi_format_sources_witness :
    testProps.sourceTypes = FormatInput.list ["mp4", "ogv"] ∧
    ∃ srcs,
      getVideoTagProps testEnv testClassifier testProps =
        ⟨some srcs, reconciledAttributes testEnv testClassifier testProps⟩ ∧
      srcs.length = (["mp4", "ogv"] : List String).length ∧
      ∀ i : Nat, srcs[i]? = ((["mp4", "ogv"] : List String)[i]?).map
        (sourceTagFor (testEnv.url (cldConfig testEnv testClassifier testProps))
          testProps.publicId
          (childTransformationsOf testEnv testClassifier testProps)
          testProps.sourceTransformation) :=
  ⟨rfl, multi_format_sources testEnv testClassifier testProps ["mp4", "ogv"] rfl⟩

/-- C3: the media-type string of an emitted source descriptor is the fixed
family prefix `"video/"` followed by `"ogg"` when the token is exactly
`"ogv"`, and by the token itself for every other token; no token is
rejected (the descriptor is produced for every token). -/
theorem source_media_type (cldUrl : String → Obj → String) (publicId : String)
    (childTransformations : Obj) (sourceTransformations : AList Obj)
    (sourceType : String) :
    (sourceType = "ogv" →
      (sourceTagFor cldUrl publicId childTransformations sourceTransformations
        sourceType).type = "video/ogg") ∧
    (sourceType ≠ "ogv" →
      (sourceTagFor cldUrl publicId childTransformations sourceTransformations
        sourceType).type = "video/" ++ sourceType) := by
  constructor
  · intro h
    subst h
    rfl
  · intro h
    show mimeType ++ "/" ++ (if sourceType = "ogv" then "ogg" else sourceType) =
      "video/" ++ sourceType
    rw [if_neg h]
    rfl

/-- C3 witness: evaluated at the special token `"ogv"` and at the unknown
token `"avi"` (not rejected, identity mapping). -/
theorem source_media_type_witness :
    (("ogv" : String) = "ogv" ∧
      (sourceTagFor probeCld "sample" [] [] "ogv").type = "video/ogg") ∧
    (("avi" : String) ≠ "ogv" ∧
      (sourceTagFor probeCld "sample" [] [] "avi").type = "video/avi") :=
  ⟨⟨rfl, (source_media_type probeCld "sample" [] [] "ogv").1 rfl⟩,
   ⟨by decide, (source_media_type probeCld "sample" [] [] "avi").2 (by decide)⟩⟩

/-- C4: whenever the format input is a single scalar token, the derivation
sets the `src` tag attribute to the URL resolved for that token and leaves
`sources` as `null` (the JS value the code assigns on line 122 and never
replaces in this branch) — no source descriptors at all, which the spec
words as "empty/absent". -/
theorem scalar_format_src (env : Env) (c : KeyClassifier)
    (p : MergedVideoProps) (tok : String)
    (h : p.sourceTypes = FormatInput.scalar tok) :
    (getVideoTagProps env c p).sources = none ∧
    alookup (getVideoTagProps env c p).tagAttributes "src" =
      some (generateVideoUrl (env.url (cldConfig env c p)) p.publicId
        (childTransformationsOf env c p) p.sourceTransformation tok) := by
  rw [getVideoTagProps_scalar env c p tok h]
  exact ⟨rfl, alookup_setKey_self _ _ _⟩

/-- C4 witness: the scalar-format theorem evaluated on sample props with
the scalar token `"webm"`. -/
theorem scalar_format_src_witness :
    testScalarProps.sourceTypes = FormatInput.scalar "webm" ∧
    ((getVideoTagProps testEnv testClassifier testScalarProps).sources = none ∧
     alookup (getVideoTagProps testEnv testClassifier testScalarProps).tagAttributes
         "src" =
       some (generateVideoUrl
         (testEnv.url (cldConfig testEnv testClassifier testScalarProps))
         testScalarProps.publicId
         (childTransformationsOf testEnv testClassifier testScalarProps)
         testScalarProps.sourceTransformation "webm")) :=
  ⟨rfl, scalar_format_src testEnv testClassifier testScalarProps "webm" rfl⟩

/-- C5: a pass-through (non-provider) configuration key is never dropped:
after the provider-computed attributes are case-converted to the
caller-facing dialect, the pass-through entries are merged last, and on any
key collision the merged attribute value is the pass-through value (and no
error is possible — the derivation is total). -/
theorem passthrough_attribute_precedence (env : Env) (c : KeyClassifier)
    (p : MergedVideoProps) (key v : String)
    (h1 : c.isCloudinaryProp key = false)
    (h2 : c.isCloudinaryReactProp key = false)
    (h3 : alookup (normalizedOptions p) key = some v) :
    alookup (reconciledAttributes env c p) key = some v := by
  have hpass : alookup (passThroughProps c p) key = some v := by
    have hf := alookup_filter
      (fun k => !c.isCloudinaryProp k && !c.isCloudinaryReactProp k)
      (normalizedOptions p) key
    simp only [h1, h2, Bool.not_false, Bool.and_self, if_pos] at hf
    rw [passThroughProps, extractCloudinaryProps]
    exact hf.trans h3
  rw [reconciledAttributes, alookup_spread, hpass]
  rfl

/-- C5 witness: the pass-through key `controls` (value `"true"`) collides
with a provider-computed `controls` attribute (value `"provider"`); the
merged attributes keep the pass-through value. -/
theorem passthrough_attribute_precedence_witness :
    testClassifier.isCloudinaryProp "controls" = false ∧
    testClassifier.isCloudinaryReactProp "controls" = false ∧
    alookup (normalizedOptions testProps) "controls" = some "true" ∧
    alookup (reconciledAttributes testEnv testClassifier testProps) "controls" =
      some "true" :=
  ⟨by decide, by decide, by decide,
   passthrough_attribute_precedence testEnv testClassifier testProps "controls"
     "true" (by decide) (by decide) (by decide)⟩

/-- C6: an empty list of format tokens is valid: the derivation returns
(no error — it is total) an empty `sources` list (`some []`, not the scalar
branch's `null`), does not fall back to the single-format branch, and does
not set `src` — the tag attributes are exactly the reconciled attributes. -/
theorem empty_format_list_sources (env : Env) (c : KeyClassifier)
    (p : MergedVideoProps) (h : p.sourceTypes = FormatInput.list []) :
    getVideoTagProps env c p = ⟨some [], reconciledAttributes env c p⟩ :=
  getVideoTagProps_list env c p [] h

/-- C6 witness: the empty-list theorem evaluated on sample props. -/
theorem empty_format_list_sources_witness :
    testEmptyProps.sourceTypes = FormatInput.list [] ∧
    getVideoTagProps testEnv testClassifier testEmptyProps =
      ⟨some [], reconciledAttributes testEnv testClassifier testEmptyProps⟩ :=
  ⟨rfl, empty_format_list_sources testEnv testClassifier testEmptyProps rfl⟩

/-- C7: the merged configuration `getMergedProps` contains every key of the
ambient context and every key of the per-element props, and on any key
collision the per-element prop value wins over the ambient context value
(the merged value is the prop value when present, else the context value). -/
theorem merged_props_precedence {V : Type} (context props : AList V)
    (key : String) :
    alookup (getMergedProps context props) key =
      (alookup props key).or (alookup context key) ∧
    (∀ v, alookup props key = some v →
      alookup (getMergedProps context props) key = some v) ∧
    ((alookup props key).isSome ∨ (alookup context key).isSome →
      (alookup (getMergedProps context props) key).isSome) := by
  refine ⟨alookup_spread context props key, ?_, ?_⟩
  · intro v hv
    rw [getMergedProps, alookup_spread, hv]
    rfl
  · intro hs
    rw [getMergedProps, alookup_spread]
    rcases hs with hs | hs
    · obtain ⟨v, hv⟩ := Option.isSome_iff_exists.mp hs
      rw [hv]
      rfl
    · obtain ⟨v, hv⟩ := Option.isSome_iff_exists.mp hs
      rw [hv]
      cases alookup props key <;> rfl

/-- C7 witness: `width` appears in both layers and the prop value `"500"`
wins; the merged mapping holds the key. -/
theorem merged_props_precedence_witness :
    alookup (getMergedProps demoContext demoProps) "width" = some "500" ∧
    (alookup (getMergedProps demoContext demoProps) "width").isSome = true :=
  ⟨(merged_props_precedence demoContext demoProps "width").2.1 "500" (by decide),
   (merged_props_precedence demoContext demoProps "width").2.2 (Or.inl (by decide))⟩

/-- C8: two sequential invocations of the derivation with identical inputs
yield identical results.  The embedding of `getVideoTagProps` is a pure
function of the merged configuration — faithful to lines 86-145, which read
only the merged props and assign only locals (no memoization, no instance
state written) — so determinism holds by construction. -/
theorem derivation_idempotent (env : Env) (c : KeyClassifier)
    (p : MergedVideoProps) :
    (deriveTwice env c p).1 = (deriveTwice env c p).2 := rfl

/-- C9: `generateVideoUrl` leaves every pre-existing object of the heap —
in particular the caller-supplied per-format override objects and the
element-level transformation object — unchanged: the `Util.defaults` merge
writes only into the freshly allocated empty destination. -/
theorem generateVideoUrl_frame (s : Store) (cldUrl : String → Obj → String)
    (publicId : String) (childRef : Nat) (stRefs : AList Nat)
    (sourceType : String) (r : Nat) (hr : r < s.length) :
    Store.read
        (generateVideoUrlHeap s cldUrl publicId childRef stRefs sourceType).2 r =
      Store.read s r := by
  show Store.read (Store.defaultsInto (s ++ [[]]) s.length _) r = Store.read s r
  unfold Store.defaultsInto Store.read
  rw [getD_set_ne _ _ _ _ _ (Nat.ne_of_lt hr)]
  exact getD_append_lt s [[]] r [] hr

/-- C9 witness: a one-object heap holding the child-transformation object,
also registered as the `mp4` override; it is unchanged after the call. -/
theorem generateVideoUrl_frame_witness :
    (0 : Nat) < ([[("quality", "50")]] : Store).length ∧
    Store.read (generateVideoUrlHeap [[("quality", "50")]] probeCld "sample" 0
      [("mp4", 0)] "mp4").2 0 = Store.read [[("quality", "50")]] 0 :=
  ⟨by decide, generateVideoUrl_frame [[("quality", "50")]] probeCld "sample" 0
    [("mp4", 0)] "mp4" 0 (by decide)⟩

/-- C10: when the caller supplies no format selector, `Video.defaultProps`
fills `sourceTypes` with the provider's default list of format tokens, so
the derivation takes the multi-format branch and produces one source
descriptor per default token (in order), without setting `src`. -/
theorem default_source_types_multi_branch (env : Env) (c : KeyClassifier)
    (p : MergedVideoProps) (defaultSourceTypes : List String)
    (h : p.sourceTypes = applyDefaultProps defaultSourceTypes none) :
    ∃ srcs,
      getVideoTagProps env c p = ⟨some srcs, reconciledAttributes env c p⟩ ∧
      srcs.length = defaultSourceTypes.length ∧
      ∀ i : Nat, srcs[i]? = (defaultSourceTypes[i]?).map
        (sourceTagFor (env.url (cldConfig env c p)) p.publicId
          (childTransformationsOf env c p) p.sourceTransformation) := by
  have hl : p.sourceTypes = FormatInput.list defaultSourceTypes := h
  refine ⟨defaultSourceTypes.map (sourceTagFor (env.url (cldConfig env c p))
      p.publicId (childTransformationsOf env c p) p.sourceTransformation),
    getVideoTagProps_list env c p defaultSourceTypes hl, by simp, fun i => ?_⟩
  simp

/-- C10 witness: with no caller-supplied selector and the provider default
list `["webm", "mp4", "ogv"]`, the derivation yields three descriptors. -/
theorem default_source_types_multi_branch_witness :
    testDefaultedProps.sourceTypes = applyDefaultProps ["webm", "mp4", "ogv"] none ∧
    ∃ srcs,
      getVideoTagProps testEnv testClassifier testDefaultedProps =
        ⟨some srcs, reconciledAttributes testEnv testClassifier testDefaultedProps⟩ ∧
      srcs.length = (["webm", "mp4", "ogv"] : List String).length ∧
      ∀ i : Nat, srcs[i]? = ((["webm", "mp4", "ogv"] : List String)[i]?).map
        (sourceTagFor
          (testEnv.url (cldConfig testEnv testClassifier testDefaultedProps))
          testDefaultedProps.publicId
          (childTransformationsOf testEnv testClassifier testDefaultedProps)
          testDefaultedProps.sourceTransformation) :=
  ⟨rfl, default_source_types_multi_branch testEnv testClassifier
    testDefaultedProps ["webm", "mp4", "ogv"] rfl⟩

end CloudinaryReact
